import Mathlib

/-!
Verification of the aeye_typer data-collection core.

Shallow embedding of:
  - `src/lib/py/app.py`       : `key_to_id`
  - `src/lib/py/hud_learn.py` : `HUDLearn.__init__`, `HUDLearn.datafile_path`,
    `HUDLearn.start`, `HUDLearn.stop`, `_HUDDataCollect._on_keypress`,
    `_HUDTrain.__init__`, `_HUDInfer.__init__`
  - the gaze buffer / `to_csv` contract of `EyeTrackerGaze`
    (`lib/py/eyetracker_gaze` is not under src/, so it is modelled from the
    spec where needed).
-/

/-- A raw pynput key object, as observed by `app.key_to_id`.

`char`: `none` means the object has no `char` attribute (special keys);
`some none` means the attribute exists but holds a value with no `lower()`
method (e.g. `None`), so `key.char.lower()` raises `AttributeError` exactly
as a missing attribute does; `some (some c)` means the attribute holds the
printable character `c`.

`valueVk`: the value of `key.value.vk` when both the `value` attribute and
its `vk` field exist, else `none` (both absences raise `AttributeError`).

`vk`: the value of `key.vk` when present; `none` means even that attribute
is missing, in which case the Python function lets the `AttributeError`
escape (a fatal programming error per the spec). -/
structure RawKey where
  char : Option (Option Char)
  valueVk : Option Nat
  vk : Option Nat
deriving Repr, DecidableEq

/-- Embedding of `app.key_to_id` (src/lib/py/app.py lines 35-49).

```python
try:
    key_id = ord(key.char.lower())
except AttributeError:
    try:
        key_id = key.value.vk
    except AttributeError:
        key_id = key.vk
return key_id
```

Returns `none` exactly when the Python code would let an `AttributeError`
escape (no `char` resolution, no `value.vk`, and no `vk` attribute). -/
def key_to_id (key : RawKey) : Option Nat :=
  match key.char with
  | some (some c) => some c.toLower.toNat
  | _ =>
    match key.valueVk with
    | some v => some v
    | none => key.vk

/-- C8: `key_to_id` is deterministic and first-match-wins: a printable
character resolves to the lower-cased character's code no matter what the
virtual-key fields hold; otherwise a present `value.vk` wins over `vk`;
otherwise the key's own `vk` field is returned directly. -/
theorem C8_key_to_id_priority :
    (∀ (c : Char) (vv vk : Option Nat),
      key_to_id ⟨some (some c), vv, vk⟩ = some c.toLower.toNat) ∧
    (∀ (ch : Option (Option Char)) (v : Nat) (vk : Option Nat),
      (∀ c : Char, ch ≠ some (some c)) →
      key_to_id ⟨ch, some v, vk⟩ = some v) ∧
    (∀ (ch : Option (Option Char)) (vk : Option Nat),
      (∀ c : Char, ch ≠ some (some c)) →
      key_to_id ⟨ch, none, vk⟩ = vk) ∧
    (∀ k₁ k₂ : RawKey, k₁ = k₂ → key_to_id k₁ = key_to_id k₂) := by
  refine ⟨fun c vv vk => rfl, ?_, ?_, fun k₁ k₂ h => h ▸ rfl⟩
  · intro ch v vk h
    match ch with
    | none => rfl
    | some none => rfl
    | some (some c) => exact absurd rfl (h c)
  · intro ch vk h
    match ch with
    | none => rfl
    | some none => rfl
    | some (some c) => exact absurd rfl (h c)

/-- Witness for C8: applies each branch of `C8_key_to_id_priority` at a
concrete key, discharging the no-character hypotheses. -/
theorem C8_key_to_id_priority_witness :
    key_to_id ⟨some (some 'A'), some 1, some 2⟩ = some 97 ∧
    key_to_id ⟨some none, some 65, some 2⟩ = some 65 ∧
    key_to_id ⟨none, none, some 66⟩ = some 66 :=
  ⟨(C8_key_to_id_priority.1 'A' (some 1) (some 2)).trans (by decide),
   C8_key_to_id_priority.2.1 (some none) 65 (some 2)
     (by intro c h; simp at h),
   C8_key_to_id_priority.2.2.1 none (some 66)
     (by intro c h; simp at h)⟩

/-- C10: a `char` attribute whose value has no `lower()` method (e.g.
`None`) is treated exactly like a missing `char` attribute: the function
does not fail there and falls through to the `value.vk` / `vk` fallback. -/
theorem C10_char_none_fallback :
    (∀ vv vk : Option Nat,
      key_to_id ⟨some none, vv, vk⟩ = key_to_id ⟨none, vv, vk⟩) ∧
    (∀ (v : Nat) (vk : Option Nat),
      key_to_id ⟨some none, some v, vk⟩ = some v) ∧
    (∀ vk : Option Nat, key_to_id ⟨some none, none, vk⟩ = vk) :=
  ⟨fun _ _ => rfl, fun _ _ => rfl, fun _ => rfl⟩

/-- One observable side effect of the session lifecycle methods of
`HUDLearn` (src/lib/py/hud_learn.py lines 60-83). `warnMsg` is a call to
`app.warn`, the gaze acts are calls on `self.gazepoint`
(the `EyeTrackerGaze` wrapper), the listener acts are calls on
`self._handler.async_proc` (the pynput keyboard listener), and
`sleepWarmup` is the fixed `sleep(1)` warm-up. -/
inductive Act where
  | warnMsg (s : String)
  | gazeOpen
  | gazeStart
  | gazeStop
  | gazeClose
  | listenerStart
  | listenerStop
  | sleepWarmup
deriving Repr, DecidableEq

/-- The session state visible to `HUDLearn.start` / `HUDLearn.stop`:
`alive` is `self._handler.async_proc.is_alive()` (true exactly while the
listener thread runs, i.e. the session is Running), and `handle`
identifies the `async_proc` object both methods return (it is created
once in `_HUDDataCollect.__init__` and never replaced). -/
structure Session where
  alive : Bool
  handle : Nat
deriving Repr, DecidableEq

/-- Embedding of `HUDLearn.start` (src/lib/py/hud_learn.py lines 60-71):
returns the new session state, the ordered list of side effects, and the
returned handle.

```python
if self._handler.async_proc.is_alive():
    warn('HUDLearn received START but is already running.')
else:
    self.gazepoint.open()
    self.gazepoint.start()
    self._handler.async_proc.start()
    sleep(1)
return self._handler.async_proc
``` -/
def HUDLearn.start (s : Session) : Session × List Act × Nat :=
  if s.alive then
    (s, ([Act.warnMsg "HUDLearn received START but is already running."],
         s.handle))
  else
    ({ s with alive := true },
     ([Act.gazeOpen, Act.gazeStart, Act.listenerStart, Act.sleepWarmup],
      s.handle))

/-- Embedding of `HUDLearn.stop` (src/lib/py/hud_learn.py lines 73-83):

```python
if not self._handler.async_proc.is_alive():
    warn('Keyboard watcher received STOP but is not running.')
else:
    self.gazepoint.stop()
    self.gazepoint.close()
    self._handler.async_proc.stop()
return self._handler.async_proc
``` -/
def HUDLearn.stop (s : Session) : Session × List Act × Nat :=
  if s.alive then
    ({ s with alive := false },
     ([Act.gazeStop, Act.gazeClose, Act.listenerStop], s.handle))
  else
    (s, ([Act.warnMsg "Keyboard watcher received STOP but is not running."],
         s.handle))

/-- C3: calling `start` while the session is already Running is an
idempotent no-op: the state is unchanged (still Running), the effect list
is exactly one warning — so the gaze source is not re-opened or
re-started and no second listener is started — and the existing handle
is returned. -/
theorem C3_start_idempotent (s : Session) (h : s.alive = true) :
    HUDLearn.start s =
      (s, ([Act.warnMsg "HUDLearn received START but is already running."],
           s.handle)) := by
  simp [HUDLearn.start, h]

/-- Witness for C3 at a concrete Running session. -/
theorem C3_start_idempotent_witness :
    HUDLearn.start ⟨true, 7⟩ =
      (⟨true, 7⟩,
       ([Act.warnMsg "HUDLearn received START but is already running."], 7)) :=
  C3_start_idempotent ⟨true, 7⟩ rfl

/-- C4: calling `stop` while the session is already Stopped is an
idempotent no-op: the state is unchanged (still Stopped), the effect list
is exactly one warning — no gaze-source stop/close and no listener stop —
and the handle is returned unchanged. -/
theorem C4_stop_idempotent (s : Session) (h : s.alive = false) :
    HUDLearn.stop s =
      (s, ([Act.warnMsg "Keyboard watcher received STOP but is not running."],
           s.handle)) := by
  simp [HUDLearn.stop, h]

/-- Witness for C4 at a concrete Stopped session. -/
theorem C4_stop_idempotent_witness :
    HUDLearn.stop ⟨false, 7⟩ =
      (⟨false, 7⟩,
       ([Act.warnMsg "Keyboard watcher received STOP but is not running."],
        7)) :=
  C4_stop_idempotent ⟨false, 7⟩ rfl

/-- C7 counterexample: `start` from Stopped performs
gaze-open, gaze-start, listener-start (then the warm-up sleep), but
`stop` from Running performs gaze-stop, gaze-close, listener-stop — NOT
the exact reverse [listener-stop, gaze-stop, gaze-close]: the listener is
stopped after, not before, the gaze source is stopped and closed. -/
theorem C7_counterexample :
    (HUDLearn.start ⟨false, 0⟩).2.1 =
      [Act.gazeOpen, Act.gazeStart, Act.listenerStart, Act.sleepWarmup] ∧
    (HUDLearn.stop ⟨true, 0⟩).2.1 =
      [Act.gazeStop, Act.gazeClose, Act.listenerStop] ∧
    (HUDLearn.stop ⟨true, 0⟩).2.1 ≠
      [Act.listenerStop, Act.gazeStop, Act.gazeClose] := by
  refine ⟨rfl, rfl, ?_⟩
  decide

/-- C7 amended: `stop` from Running tears down in the SAME relative
resource order as `start` set up (gaze source handled before the
listener): it stops then closes the gaze source first, and stops the
listener last, transitioning to Stopped and returning the handle. -/
theorem C7_amended_stop_order (s : Session) (h : s.alive = true) :
    HUDLearn.stop s =
      ({ s with alive := false },
       ([Act.gazeStop, Act.gazeClose, Act.listenerStop], s.handle)) := by
  simp [HUDLearn.stop, h]

/-- Witness for the amended C7 at a concrete Running session. -/
theorem C7_amended_stop_order_witness :
    HUDLearn.stop ⟨true, 3⟩ =
      (⟨false, 3⟩, ([Act.gazeStop, Act.gazeClose, Act.listenerStop], 3)) :=
  C7_amended_stop_order ⟨true, 3⟩ rfl

/-- A construction-time error of `HUDLearn.__init__`:
`invalidMode` is the `ValueError(f'Unsupported mode: {mode}')` raised for
an unrecognized mode tag, `notImplemented` is the `NotImplementedError`
raised by `_HUDTrain.__init__` / `_HUDInfer.__init__`. -/
inductive InitErr where
  | invalidMode (mode : String)
  | notImplemented
deriving Repr, DecidableEq

/-- The resources touched during `HUDLearn.__init__`.

`gazeWrapperCreated`: `self.gazepoint = EyeTrackerGaze()` runs before the
mode dispatch, so it is true on every path.  Modelled from the spec: the
`EyeTrackerGaze` implementation is not under src/; per the spec the gaze
DEVICE is acquired only by the separate `open()` call made in `start()`,
so constructing the wrapper opens no device.

`deviceOpened`: `gazepoint.open()` was called. `hookStarted`: the
keyboard listener thread was started (pynput installs its hook on
`Listener.start()`, which only `HUDLearn.start` calls).
`listenerCreated`: the `Keyboard.Listener` object was constructed
(`_HUDDataCollect.__init__`). `logDirCreated`: the log directory was
created via `datafile_path` (`_HUDDataCollect.__init__` reads it).
`logFileOpened`: the log file itself was opened. -/
structure InitEffects where
  gazeWrapperCreated : Bool
  deviceOpened : Bool
  hookStarted : Bool
  listenerCreated : Bool
  logDirCreated : Bool
  logFileOpened : Bool
deriving Repr, DecidableEq

/-- Effects of `self.gazepoint = EyeTrackerGaze()` alone. -/
def wrapperOnlyEffects : InitEffects :=
  { gazeWrapperCreated := true
    deviceOpened := false
    hookStarted := false
    listenerCreated := false
    logDirCreated := false
    logFileOpened := false }

/-- The mode-to-handler dispatch table of `HUDLearn.__init__`
(src/lib/py/hud_learn.py lines 40-44):

```python
handler = {
    'collect'   : _HUDDataCollect,
    'train'     : _HUDTrain,
    'infer'     : _HUDInfer
}.get(mode, None)
``` -/
inductive HandlerKind where
  | dataCollect
  | train
  | infer
deriving Repr, DecidableEq

/-- Embedding of the dict `.get(mode, None)` lookup. -/
def handlerFor (mode : String) : Option HandlerKind :=
  if mode = "collect" then some HandlerKind.dataCollect
  else if mode = "train" then some HandlerKind.train
  else if mode = "infer" then some HandlerKind.infer
  else none

/-- Embedding of `handler(self)` — construction of the selected handler
(src/lib/py/hud_learn.py lines 86-137): `_HUDDataCollect.__init__`
creates the keyboard `Listener` object and evaluates `datafile_path`
(which creates the log directory); `_HUDTrain.__init__` and
`_HUDInfer.__init__` raise `NotImplementedError` before doing anything.
Returns the error or the extra effects of the handler construction. -/
def handlerInit : HandlerKind → Except InitErr InitEffects
  | HandlerKind.dataCollect =>
      Except.ok { wrapperOnlyEffects with
                    listenerCreated := true, logDirCreated := true }
  | HandlerKind.train => Except.error InitErr.notImplemented
  | HandlerKind.infer => Except.error InitErr.notImplemented

/-- Embedding of `HUDLearn.__init__` (src/lib/py/hud_learn.py lines
27-49): constructs the gaze wrapper, dispatches on the mode tag, raises
`ValueError` when the tag is unknown, and otherwise constructs the
handler. Returns the session (Stopped) or the propagated error, paired
with the resources touched up to that point. -/
def hudLearnInit (mode : String) : Except InitErr Session × InitEffects :=
  match handlerFor mode with
  | none => (Except.error (InitErr.invalidMode mode), wrapperOnlyEffects)
  | some h =>
    match handlerInit h with
    | Except.error e => (Except.error e, wrapperOnlyEffects)
    | Except.ok eff => (Except.ok { alive := false, handle := 0 }, eff)

/-- C5: for every mode tag outside {collect, train, infer}, construction
fails with the InvalidMode error carrying that tag, and no resource is
acquired before the failure: the gaze device is not opened, no keyboard
hook or listener exists, and no log file or log directory is created
(only the inert gaze wrapper object was assigned). -/
theorem C5_invalid_mode (mode : String)
    (h₁ : mode ≠ "collect") (h₂ : mode ≠ "train") (h₃ : mode ≠ "infer") :
    hudLearnInit mode =
      (Except.error (InitErr.invalidMode mode), wrapperOnlyEffects) ∧
    wrapperOnlyEffects.deviceOpened = false ∧
    wrapperOnlyEffects.hookStarted = false ∧
    wrapperOnlyEffects.listenerCreated = false ∧
    wrapperOnlyEffects.logDirCreated = false ∧
    wrapperOnlyEffects.logFileOpened = false := by
  refine ⟨?_, rfl, rfl, rfl, rfl, rfl⟩
  simp [hudLearnInit, handlerFor, h₁, h₂, h₃]

/-- Witness for C5 at the concrete unknown tag "bogus". -/
theorem C5_invalid_mode_witness :
    hudLearnInit "bogus" =
      (Except.error (InitErr.invalidMode "bogus"), wrapperOnlyEffects) :=
  (C5_invalid_mode "bogus" (by decide) (by decide) (by decide)).1

/-- C6: for mode tags "train" and "infer", construction fails at handler
construction time with the NotImplemented error itself (propagated
unmodified), no session value is produced — so the session never reaches
Running — and nothing beyond the inert gaze wrapper was touched. -/
theorem C6_not_implemented :
    hudLearnInit "train" =
      (Except.error InitErr.notImplemented, wrapperOnlyEffects) ∧
    hudLearnInit "infer" =
      (Except.error InitErr.notImplemented, wrapperOnlyEffects) ∧
    (∀ s : Session, (hudLearnInit "train").1 ≠ Except.ok s) ∧
    (∀ s : Session, (hudLearnInit "infer").1 ≠ Except.ok s) := by
  refine ⟨rfl, rfl, ?_, ?_⟩ <;> intro s h <;> simp [hudLearnInit, handlerFor, handlerInit] at h

/-- A wall-clock instant as read by `datetime.now()` at module load,
down to the second (finer precision is irrelevant to the claims). -/
structure DateTimeVal where
  year : Nat
  month : Nat
  day : Nat
  hour : Nat
  minute : Nat
  second : Nat
deriving Repr, DecidableEq

/-- Zero-pad a number to two digits, as strftime %m/%d/%H/%M do. -/
def pad2 (n : Nat) : String :=
  if n < 10 then "0" ++ toString n else toString n

/-- Zero-pad a number to four digits, as strftime %Y does. -/
def pad4 (n : Nat) : String :=
  if n < 10 then "000" ++ toString n
  else if n < 100 then "00" ++ toString n
  else if n < 1000 then "0" ++ toString n
  else toString n

/-- Embedding of `NOW = datetime.now().strftime('%Y-%m-%d-%H-%M')`
(src/lib/py/hud_learn.py line 24): the instant captured once at module
load (session start), formatted at minute resolution. -/
def strftimeMinute (t : DateTimeVal) : String :=
  pad4 t.year ++ "-" ++ pad2 t.month ++ "-" ++ pad2 t.day ++ "-"
    ++ pad2 t.hour ++ "-" ++ pad2 t.minute

/-- Embedding of the `HUDLearn.datafile_path` property
(src/lib/py/hud_learn.py lines 51-58), over a filesystem modelled as the
list of existing directories:

```python
logdir =  Path(LOG_RAW_ROOTDIR, LOG_HUD_SUBDIR)
if not logdir.exists():
    os.makedirs(logdir)
return str(Path(logdir, f'{NOW}.csv'))
```

`root` and `sub` are the configured `LOG_RAW_ROOTDIR` and
`LOG_HUD_SUBDIR`; `now` is the `NOW` string. Returns the filesystem after
the conditional `makedirs` and the log file path. -/
def datafile_path (root sub now : String) (dirs : List String) :
    List String × String :=
  let logdir := root ++ "/" ++ sub
  let dirs' := if logdir ∈ dirs then dirs else logdir :: dirs
  (dirs', logdir ++ "/" ++ now ++ ".csv")

/-- C9: the session log path is the configured root directory joined with
the configured HUD subdirectory and a filename derived from the
module-load (session start) time at minute resolution with a `.csv`
extension; the log directory is in the filesystem afterwards, created
only if absent; the path does not depend on the prior filesystem, so
every call of one session yields the same single file; and two instants
equal down to the minute yield the same path (seconds are dropped). -/
theorem C9_datafile_path (root sub : String) (t : DateTimeVal)
    (dirs : List String) :
    (datafile_path root sub (strftimeMinute t) dirs).2 =
      root ++ "/" ++ sub ++ "/" ++ strftimeMinute t ++ ".csv" ∧
    (root ++ "/" ++ sub) ∈ (datafile_path root sub (strftimeMinute t) dirs).1 ∧
    ((root ++ "/" ++ sub) ∈ dirs →
      (datafile_path root sub (strftimeMinute t) dirs).1 = dirs) ∧
    (∀ dirs₂ : List String,
      (datafile_path root sub (strftimeMinute t) dirs₂).2 =
        (datafile_path root sub (strftimeMinute t) dirs).2) ∧
    (∀ t₂ : DateTimeVal, t.year = t₂.year → t.month = t₂.month →
      t.day = t₂.day → t.hour = t₂.hour → t.minute = t₂.minute →
      (datafile_path root sub (strftimeMinute t₂) dirs).2 =
        (datafile_path root sub (strftimeMinute t) dirs).2) := by
  refine ⟨rfl, ?_, ?_, fun dirs₂ => rfl, ?_⟩
  · by_cases h : (root ++ "/" ++ sub) ∈ dirs
    · simp [datafile_path, h]
    · simp [datafile_path, h]
  · intro h
    simp [datafile_path, h]
  · intro t₂ hy hm hd hh hmin
    simp [datafile_path, strftimeMinute, hy, hm, hd, hh, hmin]

/-- Witness for C9 at a concrete configuration, instant and filesystem,
with a second instant differing only in the seconds field. -/
theorem C9_datafile_path_witness :
    (datafile_path "/opt/app/data" "hud" (strftimeMinute ⟨2026, 10, 12, 9, 5, 0⟩) []).2 =
      "/opt/app/data" ++ "/" ++ "hud" ++ "/"
        ++ strftimeMinute ⟨2026, 10, 12, 9, 5, 0⟩ ++ ".csv" ∧
    ("/opt/app/data" ++ "/" ++ "hud") ∈
      (datafile_path "/opt/app/data" "hud" (strftimeMinute ⟨2026, 10, 12, 9, 5, 0⟩) []).1 ∧
    (datafile_path "/opt/app/data" "hud" (strftimeMinute ⟨2026, 10, 12, 9, 5, 59⟩) []).2 =
      (datafile_path "/opt/app/data" "hud" (strftimeMinute ⟨2026, 10, 12, 9, 5, 0⟩) []).2 := by
  have h := C9_datafile_path "/opt/app/data" "hud" ⟨2026, 10, 12, 9, 5, 0⟩ []
  exact ⟨h.1, h.2.1,
    h.2.2.2.2 ⟨2026, 10, 12, 9, 5, 59⟩ rfl rfl rfl rfl rfl⟩

/-- One gaze sample: a screen coordinate pair with a monotonic timestamp
(spec §3; coordinates abstracted to integers, their arithmetic is never
used by the core). -/
structure GazeSample where
  x : Int
  y : Int
  t : Nat
deriving Repr, DecidableEq

/-- Modelled from the spec: the internal state of the `EyeTrackerGaze`
buffer (`lib/py/eyetracker_gaze` is not under src/). `buffer` is the
sample buffer owned by the sampling loop, `rows` the labelled rows
already appended to the log file, oldest first (§4.2). -/
structure GazeBuf where
  buffer : List GazeSample
  rows : List (GazeSample × String)
deriving Repr, DecidableEq

/-- The buffer state before any sampling: empty buffer, empty log. -/
def gazeInit : GazeBuf := { buffer := [], rows := [] }

/-- An operation on the gaze buffer: a background producer append, or a
labelled flush (`to_csv`) requested by the key-press consumer. -/
inductive GazeEv where
  | append (s : GazeSample)
  | flush (label : String)
deriving Repr, DecidableEq

/-- Modelled from the spec: one atomic step of the `EyeTrackerGaze`
buffer (not under src/). Per §4.2/§5 the producer append and the
consumer drain-and-clear are mutually exclusive, so each operation acts
on the whole state atomically: an append enqueues one sample at the
tail; a flush drains the entire buffer in order, writes one row per
drained sample — all carrying the flush label — and clears the buffer. -/
def gazeStep (st : GazeBuf) : GazeEv → GazeBuf
  | GazeEv.append s => { st with buffer := st.buffer ++ [s] }
  | GazeEv.flush lbl =>
      { buffer := [],
        rows := st.rows ++ st.buffer.map (fun s => (s, lbl)) }

/-- Run a serialized history of buffer operations. Mutual exclusion means
every interleaving of producer and consumer is equivalent to such a
serialization. -/
def gazeRun (st : GazeBuf) (evs : List GazeEv) : GazeBuf :=
  evs.foldl gazeStep st

/-- The samples appended by a history, in producer order. -/
def appended : List GazeEv → List GazeSample
  | [] => []
  | GazeEv.append s :: rest => s :: appended rest
  | GazeEv.flush _ :: rest => appended rest

/-- Whether an operation is a producer append. -/
def isAppend : GazeEv → Bool
  | GazeEv.append _ => true
  | GazeEv.flush _ => false

theorem gazeRun_append_evs (st : GazeBuf) (xs ys : List GazeEv) :
    gazeRun st (xs ++ ys) = gazeRun (gazeRun st xs) ys :=
  List.foldl_append gazeStep st xs ys

theorem gazeRun_conserves (evs : List GazeEv) (st : GazeBuf) :
    (gazeRun st evs).rows.map Prod.fst ++ (gazeRun st evs).buffer =
      st.rows.map Prod.fst ++ st.buffer ++ appended evs := by
  induction evs generalizing st with
  | nil => simp [gazeRun, appended]
  | cons e rest ih =>
    have hstep : gazeRun st (e :: rest) = gazeRun (gazeStep st e) rest := rfl
    rw [hstep, ih]
    cases e with
    | append s => simp [gazeStep, appended]
    | flush lbl =>
      simp only [gazeStep, appended, List.map_append, List.map_map]
      have hfst : (Prod.fst ∘ fun s : GazeSample => (s, lbl)) = id := rfl
      rw [hfst, List.map_id]
      simp

theorem gazeRun_appendsOnly (evs : List GazeEv) (st : GazeBuf)
    (h : evs.all isAppend = true) :
    (gazeRun st evs).buffer = st.buffer ++ appended evs ∧
    (gazeRun st evs).rows = st.rows := by
  induction evs generalizing st with
  | nil => simp [gazeRun, appended]
  | cons e rest ih =>
    cases e with
    | append s =>
      have hrest : rest.all isAppend = true := by
        simp only [List.all_cons, Bool.and_eq_true] at h
        exact h.2
      have hstep : gazeRun st (GazeEv.append s :: rest) =
          gazeRun (gazeStep st (GazeEv.append s)) rest := rfl
      rw [hstep]
      rcases ih (gazeStep st (GazeEv.append s)) hrest with ⟨hb, hr⟩
      refine ⟨?_, ?_⟩
      · rw [hb]; simp [gazeStep, appended]
      · rw [hr]; rfl
    | flush lbl => simp [List.all_cons, isAppend] at h

/-- C2: with appends and the drain-and-clear mutually exclusive, every
serialized history satisfies: (1) the rows written so far followed by the
samples still buffered are exactly the appended samples in producer order
— no sample lost, duplicated, or reordered; (2) immediately after a
flush the buffer is empty, and since the flush step is atomic a producer
never observes a partially-cleared buffer; (3) samples appended after a
flush remain buffered, in order, for the next flush. -/
theorem C2_flush_atomic_no_loss :
    (∀ evs : List GazeEv,
      (gazeRun gazeInit evs).rows.map Prod.fst ++ (gazeRun gazeInit evs).buffer
        = appended evs) ∧
    (∀ (pre : List GazeEv) (lbl : String),
      (gazeRun gazeInit (pre ++ [GazeEv.flush lbl])).buffer = []) ∧
    (∀ (pre : List GazeEv) (lbl : String) (post : List GazeEv),
      post.all isAppend = true →
      (gazeRun gazeInit (pre ++ GazeEv.flush lbl :: post)).buffer =
        appended post) := by
  refine ⟨?_, ?_, ?_⟩
  · intro evs
    have h := gazeRun_conserves evs gazeInit
    simpa [gazeInit] using h
  · intro pre lbl
    rw [gazeRun_append_evs]
    rfl
  · intro pre lbl post h
    have hsplit : pre ++ GazeEv.flush lbl :: post =
        (pre ++ [GazeEv.flush lbl]) ++ post := by simp
    rw [hsplit, gazeRun_append_evs]
    have hempty : (gazeRun gazeInit (pre ++ [GazeEv.flush lbl])).buffer = [] := by
      rw [gazeRun_append_evs]; rfl
    rcases gazeRun_appendsOnly post
        (gazeRun gazeInit (pre ++ [GazeEv.flush lbl])) h with ⟨hb, _⟩
    rw [hb, hempty]
    rfl

/-- Witness for C2: a concrete history — append, flush, append — leaves
exactly the post-flush sample buffered. -/
theorem C2_flush_atomic_no_loss_witness :
    (gazeRun gazeInit
        [GazeEv.append ⟨100, 200, 1⟩, GazeEv.flush "lbl",
         GazeEv.append ⟨101, 201, 2⟩]).buffer =
      [⟨101, 201, 2⟩] :=
  (C2_flush_atomic_no_loss.2.2 [GazeEv.append ⟨100, 200, 1⟩] "lbl"
      [GazeEv.append ⟨101, 201, 2⟩] (by decide)).trans (by decide)

/-- Embedding of the label built by `_HUDDataCollect._on_keypress`
(src/lib/py/hud_learn.py line 116):
`f'{centr[0]}, {centr[1]}, {key_id}'` — note the literal comma-SPACE
separators of the f-string. Centroid coordinates and the key id are
non-negative integers, rendered in decimal as Python does. -/
def keypressLabel (cx cy kid : Nat) : String :=
  toString cx ++ ", " ++ toString cy ++ ", " ++ toString kid

/-- Embedding of `_HUDDataCollect._on_keypress`
(src/lib/py/hud_learn.py lines 105-116). `resolver` is the external
`hud_state.hud.active_panel.btn_frompayload(key_id).centroid` lookup,
`logpath` is `self._logpath`. Returns the list of `to_csv` (flush) calls
made, each as (path, label); `none` when `key_to_id` fails fatally. -/
def on_keypress (resolver : Nat → Nat × Nat) (logpath : String)
    (key : RawKey) : Option (List (String × String)) :=
  (key_to_id key).map fun key_id =>
    let centr := resolver key_id
    [(logpath, keypressLabel centr.1 centr.2 key_id)]

/-- Modelled from the spec: the row `EyeTrackerGaze.to_csv` writes for
one drained sample (`lib/py/eyetracker_gaze` is not under src/); per
§4.2 it is `gaze_x,gaze_y,<label>`. -/
def gazeRow (s : GazeSample) (label : String) : String :=
  toString s.x ++ "," ++ toString s.y ++ "," ++ label

/-- C1 counterexample: with button centroid (150, 250) and the key 'a'
(key id 97), the handler passes the label "150, 250, 97" to the single
flush call — not the claimed "150,250,97": the f-string puts a space
after each comma, so the written rows carry extra whitespace. -/
theorem C1_counterexample :
    on_keypress (fun _ => (150, 250)) "p.csv" ⟨some (some 'a'), none, none⟩ =
      some [("p.csv", "150, 250, 97")] ∧
    "150, 250, 97" ≠ "150,250,97" := by
  refine ⟨?_, by decide⟩
  rfl

/-- C1 amended: for every key whose id resolves, the handler calls the
gaze source's flush exactly once, with the session log path and the
label `"{x}, {y}, {key_id}"` — comma-and-space separated; each written
row is therefore `gaze_x,gaze_y,btn_x, btn_y, key_id`: five
comma-separated fields, with one space after the third and fourth
commas and no header. -/
theorem C1_amended_label (resolver : Nat → Nat × Nat) (logpath : String)
    (key : RawKey) (kid : Nat) (h : key_to_id key = some kid) :
    on_keypress resolver logpath key =
      some [(logpath,
        toString (resolver kid).1 ++ ", " ++ toString (resolver kid).2
          ++ ", " ++ toString kid)] ∧
    (∀ s : GazeSample,
      gazeRow s (keypressLabel (resolver kid).1 (resolver kid).2 kid) =
        toString s.x ++ "," ++ toString s.y ++ ","
          ++ toString (resolver kid).1 ++ ", " ++ toString (resolver kid).2
          ++ ", " ++ toString kid) := by
  constructor
  · simp [on_keypress, h, keypressLabel]
  · intro s
    simp [gazeRow, keypressLabel, String.append_assoc]

/-- Witness for the amended C1 at the concrete key 'a', centroid
(150, 250) and a concrete gaze sample. -/
theorem C1_amended_label_witness :
    on_keypress (fun _ => (150, 250)) "log.csv" ⟨some (some 'a'), none, none⟩ =
      some [("log.csv", "150, 250, 97")] ∧
    gazeRow ⟨100, 200, 1⟩ (keypressLabel 150 250 97) =
      "100,200,150, 250, 97" := by
  have h := C1_amended_label (fun _ => (150, 250)) "log.csv"
    ⟨some (some 'a'), none, none⟩ 97 (by decide)
  exact ⟨h.1.trans (by decide), (h.2 ⟨100, 200, 1⟩).trans (by decide)⟩
